import Mathlib

/-!
Verification of the guest-slot / volume lifecycle core of the LDM_Docker
repository (src/jupyterhub/api/jupyterhub_api/api.py,
src/jupyterhub/api/jupyterhub_api/utils.py, with the older duplicated copy in
src/jupyterhub/jupyterhub_api.py).  The Python functions are shallowly
embedded: configuration values and engine snapshots are explicit parameters,
exceptions are Except/Option values, and container-engine side effects are
recorded in explicit state records.
-/

/-! ### Python primitives used by the code -/

/-- Whitespace characters stripped by the Python int() conversion. -/
def pyIsSpace (c : Char) : Bool :=
  c == ' ' || c == '\t' || c == '\n' || c == '\r'

/-- Value of a non-empty all-digit character list, most significant first;
none if the list is empty or contains a non-digit. -/
def decDigitsVal? (l : List Char) : Option Nat :=
  if !l.isEmpty && l.all Char.isDigit then
    some (l.foldl (fun a c => 10 * a + (c.toNat - 48)) 0)
  else none

/-- Python int(s) on a string: optional surrounding whitespace, optional sign,
decimal digits; none models the ValueError raised on any other input. -/
def pyInt (s : String) : Option Int :=
  match (((s.data.dropWhile pyIsSpace).reverse.dropWhile pyIsSpace).reverse) with
  | '-' :: rest => (decDigitsVal? rest).map (fun n => -(n : Int))
  | '+' :: rest => (decDigitsVal? rest).map (fun n => (n : Int))
  | t => (decDigitsVal? t).map (fun n => (n : Int))

/-- Python s.startswith(pre). -/
def pyStartsWith (s pre : String) : Bool :=
  List.isPrefixOf pre.data s.data

/-- Does the needle occur as a contiguous run somewhere in the haystack? -/
def listOccurs : List Char → List Char → Bool
  | needle, [] => needle.isEmpty
  | needle, c :: cs => List.isPrefixOf needle (c :: cs) || listOccurs needle cs

/-- Python substring test: needle in hay. -/
def strContains (needle hay : String) : Bool :=
  listOccurs needle.data hay.data

/-- If pat is an initial segment of l, the rest of l after it. -/
def dropIfFront : List Char → List Char → Option (List Char)
  | [], l => some l
  | _ :: _, [] => none
  | p :: ps, c :: cs => if p == c then dropIfFront ps cs else none

/-- Fuel-driven scanner behind pyReplace; each step consumes at least one
character of the input when the pattern is non-empty, so fuel = input length
suffices. -/
def replAux (pat rep : List Char) : Nat → List Char → List Char
  | 0, l => l
  | fuel + 1, l =>
    match l with
    | [] => []
    | c :: cs =>
      match dropIfFront pat l with
      | some rem => rep ++ replAux pat rep fuel rem
      | none => c :: replAux pat rep fuel cs

/-- Python s.replace(pat, rep) for a non-empty pattern: every non-overlapping
occurrence is replaced, scanning left to right. -/
def pyReplace (s pat rep : String) : String :=
  ⟨replAux pat.data rep.data s.data.length s.data⟩

/-- os.path.basename: the part of the path after the final slash. -/
def pyBasename (p : String) : String :=
  ⟨(p.data.splitOn '/').getLastD []⟩

/-! ### Guest slot enumerator (get_guest_list in utils.py / jupyterhub_api.py) -/

/-- get_guest_list after int(n) succeeded with value n:
[f"guest\x7bi\x7d" for i in range(0, n)]; range(0, n) is empty for n ≤ 0. -/
def get_guest_list (n : Int) : List String :=
  (List.range n.toNat).map (fun i => "guest" ++ Nat.repr i)

/-- get_guest_list on the raw configuration string; none models the ValueError
raised by int() on a non-numeric string. -/
def get_guest_list_s (s : String) : Option (List String) :=
  (pyInt s).map get_guest_list

/-- The spec reads the pool size from the environment; a missing variable is
none and the Python falsiness test also treats the empty string as unset. -/
def cfgUnset : Option String → Bool
  | none => true
  | some s => s == ""

/-! ### Active-session query (get_running_users in api.py) -/

/-- JSON values, with just enough structure to express Python truthiness of
the server field. -/
inductive JVal where
  | jnull : JVal
  | jbool : Bool → JVal
  | jstr : String → JVal
  | jnum : Int → JVal
  | jarr : List JVal → JVal
  | jobj : List (String × JVal) → JVal

/-- Python truthiness of a decoded JSON value. -/
def JVal.truthy : JVal → Bool
  | .jnull => false
  | .jbool b => b
  | .jstr s => !(s == "")
  | .jnum n => !(n == 0)
  | .jarr l => !l.isEmpty
  | .jobj l => !l.isEmpty

/-- One record of the user-listing payload of the hub: a name and an optional
server field (user.get on a missing server field yields None). -/
structure UserRec where
  name : String
  server : Option JVal

/-- Whether the server field is present and truthy. -/
def serverTruthy (u : UserRec) : Bool :=
  match u.server with
  | some v => JVal.truthy v
  | none => false

/-- Outcome of the HTTP request plus JSON decoding made by get_running_users:
a network/timeout/non-2xx failure (requests.exceptions.RequestException), an
undecodable body (json.JSONDecodeError), or a decoded list of records. -/
inductive QueryOut where
  | netFail : QueryOut
  | parseFail : QueryOut
  | ok : List UserRec → QueryOut

/-- get_running_users from api.py: the name of every record whose server field
is truthy; both failure branches are caught and degrade to the empty list. -/
def get_running_users : QueryOut → List String
  | .netFail => []
  | .parseFail => []
  | .ok users => (users.filter serverTruthy).map UserRec.name

/-! ### Slot allocator (get_free_user in api.py) -/

/-- Exceptions that escape get_free_user (int() on a non-numeric pool size). -/
inductive PyErr where
  | valueError : PyErr
  deriving DecidableEq

/-- get_free_user from api.py, over the configured pool size and the busy list
returned by get_running_users.  A missing or empty configuration logs and
returns None; a non-numeric one raises out of int().  The set difference and
the arbitrary set.pop() are realised as a filter in enumeration order followed
by head?, one admissible resolution of the unspecified choice. -/
def get_free_user (cfg : Option String) (running : List String) :
    Except PyErr (Option String) :=
  match cfg with
  | none => .ok none
  | some s =>
    if s == "" then .ok none
    else
      match pyInt s with
      | none => .error .valueError
      | some n =>
        .ok ((get_guest_list n).filter (fun g => !running.contains g)).head?

/-! ### Volume collector (cleanup_unused_volumes in api.py) -/

/-- One mount entry in the attrs of a running container: its Type and Name. -/
structure Mount where
  mtype : String
  mname : String
  deriving DecidableEq

/-- The used set: names of mounts of type "volume" across running containers. -/
def usedVolumes : List (List Mount) → List String
  | [] => []
  | c :: cs =>
    (c.filterMap (fun m => if m.mtype == "volume" then some m.mname else none))
      ++ usedVolumes cs

/-- The per-volume removal test of cleanup_unused_volumes: the name starts
with "jupyterhub-guest", is not mounted by a running container, and the
username computed by volume_name.replace("jupyterhub-", "") is in the guest
list.  Note the decode is a replace of every occurrence, not a strip of the
leading prefix only. -/
def volumeCandidate (guests used : List String) (v : String) : Bool :=
  pyStartsWith v "jupyterhub-guest" &&
    (!used.contains v && guests.contains (pyReplace v "jupyterhub-" ""))

/-- Result of one collector run: the returned count, the volumes whose forced
removal succeeded, and every volume on which removal was attempted. -/
structure CleanupOut where
  res : Int
  removed : List String
  attempted : List String
  deriving DecidableEq

/-- The collector loop over the volume snapshot.  removeOk is the verdict of
the engine on each volume.remove(force=True) call; a failing removal is caught,
not counted, and the loop continues. -/
def sweepVolumes (guests used : List String) (removeOk : String → Bool) :
    List String → CleanupOut
  | [] => ⟨0, [], []⟩
  | v :: vs =>
    let r := sweepVolumes guests used removeOk vs
    if volumeCandidate guests used v then
      if removeOk v then ⟨r.res + 1, v :: r.removed, v :: r.attempted⟩
      else ⟨r.res, r.removed, v :: r.attempted⟩
    else r

/-- cleanup_unused_volumes from api.py over the configuration string, the
volume and running-container snapshots, and the removal verdicts of the engine.
A missing or empty configuration returns -1 before the sweep; a non-numeric
one raises inside the try block and the outer handler returns -1. -/
def cleanup_unused_volumes (cfg : Option String) (volumes : List String)
    (containers : List (List Mount)) (removeOk : String → Bool) : CleanupOut :=
  match cfg with
  | none => ⟨-1, [], []⟩
  | some s =>
    if s == "" then ⟨-1, [], []⟩
    else
      match pyInt s with
      | none => ⟨-1, [], []⟩
      | some n =>
        sweepVolumes (get_guest_list n) (usedVolumes containers) removeOk volumes

/-- The removal predicate as the spec words it: guest-marker at the front and
the identity obtained by stripping the single leading "jupyterhub-" (11
characters) lies in the guest universe.  Kept separate from volumeCandidate to
compare the two decodes. -/
def claimCandidate (guests used : List String) (v : String) : Bool :=
  pyStartsWith v "jupyterhub-guest" &&
    (!used.contains v && guests.contains ⟨v.data.drop 11⟩)

/-! ### Archive builder (create_tar_archive in utils.py) -/

/-- A file on the manager host: its bytes and its os.path.getmtime value. -/
structure FileData where
  content : List Nat
  mtime : Int
  deriving DecidableEq

/-- One member of the produced tar stream, with the TarInfo fields the code
sets: name, size, mode, mtime, and the bytes added next to it. -/
structure TarEntry where
  ename : String
  esize : Nat
  emode : Nat
  emtime : Int
  edata : List Nat
  deriving DecidableEq

/-- The BytesIO buffer returned by create_tar_archive: its members and the
stream position after buf.seek(0). -/
structure TarStream where
  entries : List TarEntry
  pos : Nat
  deriving DecidableEq

/-- create_tar_archive from utils.py over a snapshot of the filesystem
(path to file data).  error () models the FileNotFoundError raised when the
path does not exist; otherwise one entry is written with name
os.path.basename(path), size len(data), mode 0o644, mtime of the source, and
the buffer is rewound to position 0. -/
def create_tar_archive (fs : String → Option FileData) (p : String) :
    Except Unit TarStream :=
  match fs p with
  | none => .error ()
  | some f => .ok ⟨[⟨pyBasename p, f.content.length, 0o644, f.mtime, f.content⟩], 0⟩

/-! ### Volume seeder (copy_file_to_volume in utils.py) -/

/-- Typed failures of one copy_file_to_volume call, one per raising call
site. -/
inductive SeedErr where
  | imagePullFailed : SeedErr
  | createFailed : SeedErr
  | startFailed : SeedErr
  | execFailed : SeedErr
  | sourceNotFound : SeedErr
  | putFailed : SeedErr
  | removeFailed : SeedErr
  deriving DecidableEq

/-- Outcome of each engine and filesystem call made during one seeding run.
mkdirExitZero is the exit status of the mkdir command; the code discards the
exec_run return value, so it influences nothing. -/
structure SeedEnv where
  imagePresent : Bool
  pullOk : Bool
  createOk : Bool
  startOk : Bool
  execApiOk : Bool
  mkdirExitZero : Bool
  sourceExists : Bool
  putOk : Bool
  removeOk : Bool
  deriving DecidableEq

/-- Helper-container and archive state left behind by one seeding run. -/
structure SeedSt where
  created : Bool
  removed : Bool
  archived : Bool
  deriving DecidableEq

/-- The body of the try block: exec_run("mkdir -p ..."), create_tar_archive,
put_archive, in that order, each propagating its exception. -/
def seedBody (e : SeedEnv) : Except SeedErr Bool :=
  if !e.execApiOk then .error .execFailed
  else if !e.sourceExists then .error .sourceNotFound
  else if !e.putOk then .error .putFailed
  else .ok true

/-- Whether the in-memory archive got built during the body: the exec call
returned and create_tar_archive found the source. -/
def bodyArchived (e : SeedEnv) : Bool :=
  e.execApiOk && e.sourceExists

/-- copy_file_to_volume from utils.py.  Image check/pull, then create, then
start — the start call sits before the try block, so a start failure skips the
finally.  The finally runs init.remove(force=True); per Python semantics a
raising finally replaces whatever the body produced. -/
def copy_file_to_volume (e : SeedEnv) : Except SeedErr Bool × SeedSt :=
  if !e.imagePresent && !e.pullOk then (.error .imagePullFailed, ⟨false, false, false⟩)
  else if !e.createOk then (.error .createFailed, ⟨false, false, false⟩)
  else if !e.startOk then (.error .startFailed, ⟨true, false, false⟩)
  else if e.removeOk then (seedBody e, ⟨true, true, bodyArchived e⟩)
  else (.error .removeFailed, ⟨true, false, bodyArchived e⟩)

/-! ### Seeding entry point (copy_notebook_to_container in api.py) -/

/-- Engine-facing state left behind by one copy_notebook_to_container call. -/
structure NbState where
  clientCreated : Bool
  seed : SeedSt
  deriving DecidableEq

/-- The state before anything touched the engine. -/
def nbInit : NbState := ⟨false, ⟨false, false, false⟩⟩

/-- copy_notebook_to_container from api.py: input validation, then
docker.from_env(), then the os.path.exists check on the storage path, then
copy_file_to_volume; every exception below the validation is caught and
reported as False. -/
def copy_notebook_to_container (username notebook_name : String)
    (clientOk srcExists : Bool) (e : SeedEnv) : Bool × NbState :=
  if username == "" || notebook_name == "" then (false, nbInit)
  else if strContains ".." notebook_name || strContains "/" notebook_name
      || strContains "\\" notebook_name then (false, nbInit)
  else if !clientOk then (false, nbInit)
  else if !srcExists then (false, ⟨true, ⟨false, false, false⟩⟩)
  else
    match copy_file_to_volume e with
    | (.ok _, st) => (true, ⟨true, st⟩)
    | (.error _, st) => (false, ⟨true, st⟩)

/-! ### Remaining definitions: decidability, decimal values, concrete runs -/

instance {ε α : Type} [DecidableEq ε] [DecidableEq α] : DecidableEq (Except ε α) := fun a b =>
  match a, b with
  | .ok x, .ok y =>
    if h : x = y then isTrue (by rw [h]) else isFalse (fun hc => h (Except.ok.inj hc))
  | .error x, .error y =>
    if h : x = y then isTrue (by rw [h]) else isFalse (fun hc => h (Except.error.inj hc))
  | .ok _, .error _ => isFalse (fun hc => Except.noConfusion hc)
  | .error _, .ok _ => isFalse (fun hc => Except.noConfusion hc)

/-- Numeric value of a decimal digit string, used to invert Nat.repr. -/
def decCharsVal (l : List Char) : Nat :=
  l.foldl (fun a c => 10 * a + (c.toNat - 48)) 0

/-- A seeding run in which the engine call starting the helper raises and all
other calls would succeed. -/
def startFailRun : SeedEnv := ⟨true, true, true, false, true, true, true, true, true⟩

/-- A seeding run in which every step succeeds but the final forced removal of
the helper raises. -/
def removeFailRun : SeedEnv := ⟨true, true, true, true, true, true, true, true, false⟩

/-- A seeding run in which the source file is missing and every engine call
succeeds. -/
def sourceMissingRun : SeedEnv := ⟨true, true, true, true, true, true, false, true, true⟩

/-- A seeding run in which everything succeeds. -/
def allOkRun : SeedEnv := ⟨true, true, true, true, true, true, true, true, true⟩

/-- A one-file filesystem snapshot for concrete archive runs. -/
def oneFileFs : String → Option FileData :=
  fun q => if q = "/var/lib/ckan/notebook/a.ipynb" then some ⟨[7, 8], 3⟩ else none

/-! ### Decimal numeral facts: Nat.repr is injective -/

/-- The accumulator of Nat.toDigitsCore is just appended to the output. -/
theorem toDigitsCore_append (f : Nat) :
    ∀ (n : Nat) (l : List Char),
      Nat.toDigitsCore 10 f n l = Nat.toDigitsCore 10 f n [] ++ l := by
  induction f with
  | zero => intro n l; simp [Nat.toDigitsCore]
  | succ f ih =>
    intro n l
    simp only [Nat.toDigitsCore]
    by_cases h : n / 10 = 0
    · simp [h]
    · simp only [h, if_false]
      rw [ih (n / 10) (Nat.digitChar (n % 10) :: l), ih (n / 10) [Nat.digitChar (n % 10)]]
      simp

/-- Code-point value of the digit characters produced by Nat.digitChar. -/
theorem digitChar_sub (d : Nat) (h : d < 10) : (Nat.digitChar d).toNat - 48 = d := by
  interval_cases d <;> rfl

theorem decCharsVal_append (l : List Char) (c : Char) :
    decCharsVal (l ++ [c]) = 10 * decCharsVal l + (c.toNat - 48) := by
  simp [decCharsVal, List.foldl_append]

/-- With enough fuel, Nat.toDigitsCore computes a faithful decimal numeral. -/
theorem toDigitsCore_val (f : Nat) :
    ∀ n, n < f → decCharsVal (Nat.toDigitsCore 10 f n []) = n := by
  induction f with
  | zero => intro n h; exact absurd h (Nat.not_lt_zero n)
  | succ f ih =>
    intro n h
    simp only [Nat.toDigitsCore]
    by_cases h0 : n / 10 = 0
    · have h10 : n < 10 := by omega
      have hm : n % 10 = n := by omega
      simp [h0, decCharsVal, hm, digitChar_sub n h10]
    · have h1 : n / 10 < f := by omega
      simp only [h0, if_false]
      rw [toDigitsCore_append, decCharsVal_append, ih (n / 10) h1,
        digitChar_sub (n % 10) (by omega)]
      omega

theorem repr_val (n : Nat) : decCharsVal (Nat.repr n).data = n := by
  have h : (Nat.repr n).data = Nat.toDigitsCore 10 (n + 1) n [] := rfl
  rw [h]
  exact toDigitsCore_val (n + 1) n (Nat.lt_succ_self n)

theorem repr_data_inj (m n : Nat) (h : (Nat.repr m).data = (Nat.repr n).data) : m = n := by
  have h2 := congrArg decCharsVal h
  rwa [repr_val, repr_val] at h2

theorem string_data_append (a b : String) : (a ++ b).data = a.data ++ b.data := by
  obtain ⟨ad⟩ := a
  obtain ⟨bd⟩ := b
  rfl

/-- Distinct indices yield distinct guest names. -/
theorem guestName_inj (i j : Nat)
    (h : "guest" ++ Nat.repr i = "guest" ++ Nat.repr j) : i = j := by
  apply repr_data_inj
  have hd := congrArg String.data h
  rw [string_data_append, string_data_append] at hd
  exact List.append_cancel_left hd

theorem get_guest_list_nodup (n : Int) : (get_guest_list n).Nodup :=
  (List.nodup_range _).map (fun i j h => guestName_inj i j h)

/-! ### Shared evaluation lemmas -/

/-- A configuration string that int() accepts is not the empty string. -/
theorem beq_empty_false_of_pyInt (s : String) (n : Int) (h : pyInt s = some n) :
    (s == "") = false := by
  cases hb : s == ""
  · rfl
  · exfalso
    have hse : s = "" := eq_of_beq hb
    subst hse
    rw [show pyInt "" = none from rfl] at h
    exact Option.noConfusion h

/-- On a parseable pool size, get_free_user reaches the set difference. -/
theorem get_free_user_run (s : String) (n : Int) (running : List String)
    (h : pyInt s = some n) :
    get_free_user (some s) running
      = .ok ((get_guest_list n).filter (fun g => !running.contains g)).head? := by
  have hs := beq_empty_false_of_pyInt s n h
  simp [get_free_user, hs, h]

/-- On a parseable pool size, the collector runs its sweep over the snapshot. -/
theorem cleanup_run (s : String) (n : Int) (volumes : List String)
    (containers : List (List Mount)) (removeOk : String → Bool)
    (h : pyInt s = some n) :
    cleanup_unused_volumes (some s) volumes containers removeOk
      = sweepVolumes (get_guest_list n) (usedVolumes containers) removeOk volumes := by
  have hs := beq_empty_false_of_pyInt s n h
  simp [cleanup_unused_volumes, hs, h]

/-- The sweep attempts removal on every candidate, counts exactly the
successful removals, and never touches a non-candidate. -/
theorem sweepVolumes_spec (guests used : List String) (removeOk : String → Bool) :
    ∀ volumes : List String,
      (sweepVolumes guests used removeOk volumes).attempted
          = volumes.filter (volumeCandidate guests used) ∧
      (sweepVolumes guests used removeOk volumes).removed
          = volumes.filter (fun v => volumeCandidate guests used v && removeOk v) ∧
      (sweepVolumes guests used removeOk volumes).res
          = ((volumes.filter (fun v => volumeCandidate guests used v && removeOk v)).length : Int) := by
  intro volumes
  induction volumes with
  | nil => exact ⟨rfl, rfl, rfl⟩
  | cons v vs ih =>
    simp only [sweepVolumes, List.filter_cons]
    by_cases hc : volumeCandidate guests used v
    · by_cases hr : removeOk v
      · simp [hc, hr, ih.1, ih.2.1, ih.2.2]
      · simp [hc, hr, ih.1, ih.2.1, ih.2.2]
    · simp [hc, ih.1, ih.2.1, ih.2.2]

/-! ### The claims -/

/-- Claim C1, amended: over every volume snapshot, mount snapshot and parseable
pool size, cleanup_unused_volumes removes exactly those volumes whose name
starts with "jupyterhub-guest", is not mounted with mount-type "volume" by a
running container, and whose name with every occurrence of "jupyterhub-"
removed (the replace-all decode the code performs, not the strip of the single
leading marker the claim words) lies in the guest universe; the returned count
equals the size of that set and no other volume is ever touched. -/
theorem C1_collect_removal_set (s : String) (n : Int) (volumes : List String)
    (containers : List (List Mount)) (h : pyInt s = some n) :
    (cleanup_unused_volumes (some s) volumes containers (fun _ => true)).removed
        = volumes.filter (fun v =>
            pyStartsWith v "jupyterhub-guest" &&
              (!(usedVolumes containers).contains v &&
                (get_guest_list n).contains (pyReplace v "jupyterhub-" ""))) ∧
    (cleanup_unused_volumes (some s) volumes containers (fun _ => true)).res
        = ((volumes.filter (fun v =>
            pyStartsWith v "jupyterhub-guest" &&
              (!(usedVolumes containers).contains v &&
                (get_guest_list n).contains (pyReplace v "jupyterhub-" "")))).length : Int) ∧
    (∀ v, v ∈ volumes →
      (pyStartsWith v "jupyterhub-guest" &&
        (!(usedVolumes containers).contains v &&
          (get_guest_list n).contains (pyReplace v "jupyterhub-" ""))) = false →
      v ∉ (cleanup_unused_volumes (some s) volumes containers (fun _ => true)).attempted) := by
  rw [cleanup_run s n volumes containers (fun _ => true) h]
  have hs := sweepVolumes_spec (get_guest_list n) (usedVolumes containers) (fun _ => true) volumes
  have hcand : ∀ v, (volumeCandidate (get_guest_list n) (usedVolumes containers) v && true)
      = volumeCandidate (get_guest_list n) (usedVolumes containers) v := by
    intro v; simp
  constructor
  · rw [hs.2.1]
    simp only [hcand]
    rfl
  constructor
  · rw [hs.2.2]
    simp only [hcand]
    rfl
  · intro v hv hfalse
    rw [hs.1]
    intro hmem
    have hm2 := (List.mem_filter.mp hmem).2
    rw [show volumeCandidate (get_guest_list n) (usedVolumes containers) v = false from hfalse] at hm2
    exact Bool.noConfusion hm2

/-- Claim C1 witness: the out-of-universe scenario of the spec (N = 3, used =
jupyterhub-guest0): jupyterhub-guest5 and the foreign volume are untouched. -/
theorem C1_collect_removal_set_witness :
    pyInt "3" = some 3 ∧
    (cleanup_unused_volumes (some "3")
        ["jupyterhub-guest0", "jupyterhub-guest5", "jupyterhub-user-alice"]
        [[⟨"volume", "jupyterhub-guest0"⟩]] (fun _ => true)).removed
      = (["jupyterhub-guest0", "jupyterhub-guest5", "jupyterhub-user-alice"] : List String).filter
          (fun v => pyStartsWith v "jupyterhub-guest" &&
            (!(usedVolumes [[⟨"volume", "jupyterhub-guest0"⟩]]).contains v &&
              (get_guest_list 3).contains (pyReplace v "jupyterhub-" ""))) :=
  ⟨by decide,
    (C1_collect_removal_set "3" 3 ["jupyterhub-guest0", "jupyterhub-guest5", "jupyterhub-user-alice"]
      [[⟨"volume", "jupyterhub-guest0"⟩]] (by decide)).1⟩

/-- Claim C1 counterexample to the claim as stated: the unused volume
jupyterhub-guestjupyterhub-0 decodes by stripping the leading marker to
guestjupyterhub-0, which is outside the universe of size 1, so the claim says
it must be left untouched; the code removes it, because the replace-all decode
collapses the name to guest0. -/
theorem C1_collect_counterexample :
    (cleanup_unused_volumes (some "1") ["jupyterhub-guestjupyterhub-0"] []
        (fun _ => true)).removed = ["jupyterhub-guestjupyterhub-0"] ∧
    claimCandidate (get_guest_list 1) (usedVolumes []) "jupyterhub-guestjupyterhub-0" = false := by
  decide

/-- Claim C2, amended: whenever the start of the helper container and its
final forced removal succeed, the helper is removed on every exit path of the
seeding call, whatever the inner steps did (in particular, a missing source
file yields the source-not-found failure with the helper created and removed);
but if the start call itself raises, the created helper is left behind, since
the start sits before the try/finally block. -/
theorem C2_helper_release (e : SeedEnv) (hstart : e.startOk = true)
    (hrem : e.removeOk = true) :
    (copy_file_to_volume e).2.removed = (copy_file_to_volume e).2.created ∧
    (e.sourceExists = false → e.createOk = true → (e.imagePresent || e.pullOk) = true →
      e.execApiOk = true →
      (copy_file_to_volume e).1 = .error .sourceNotFound ∧
      (copy_file_to_volume e).2.created = true ∧
      (copy_file_to_volume e).2.removed = true) := by
  obtain ⟨a, b, c, d, x, y, z, w, r⟩ := e
  simp only at hstart hrem
  subst hstart
  subst hrem
  cases a <;> cases b <;> cases c <;> cases x <;> cases y <;> cases z <;> cases w <;> decide

/-- Claim C2 witness: a concrete missing-source run removes its helper. -/
theorem C2_helper_release_witness :
    (copy_file_to_volume sourceMissingRun).1 = .error .sourceNotFound ∧
    (copy_file_to_volume sourceMissingRun).2.created = true ∧
    (copy_file_to_volume sourceMissingRun).2.removed = true :=
  (C2_helper_release sourceMissingRun rfl rfl).2 rfl rfl rfl rfl

/-- Claim C2 counterexample to the claim as stated: when the start call raises
mid-sequence, the helper container was created but is never removed. -/
theorem C2_helper_counterexample :
    (copy_file_to_volume startFailRun).2.created = true ∧
    (copy_file_to_volume startFailRun).2.removed = false := by decide

/-- Claim C3: for every parseable pool size and every busy set returned by the
session query, get_free_user returns None exactly when every guest identity is
busy, and any identity it returns lies in the guest universe and outside the
busy set. -/
theorem C3_allocate (s : String) (n : Int) (running : List String)
    (h : pyInt s = some n) :
    (get_free_user (some s) running = .ok none ↔
      ∀ g ∈ get_guest_list n, g ∈ running) ∧
    (∀ x, get_free_user (some s) running = .ok (some x) →
      x ∈ get_guest_list n ∧ x ∉ running) := by
  rw [get_free_user_run s n running h]
  constructor
  · rw [show ∀ o : Option String, (Except.ok o : Except PyErr (Option String)) = .ok none ↔ o = none from fun o => by
      exact ⟨fun hc => Except.ok.inj hc, fun hc => by rw [hc]⟩]
    rw [List.head?_eq_none_iff, List.filter_eq_nil_iff]
    constructor
    · intro hf g hg
      have hg2 := hf g hg
      simpa using hg2
    · intro hf g hg
      simp [hf g hg]
  · intro x hx
    have hx2 : ((get_guest_list n).filter (fun g => !running.contains g)).head? = some x :=
      Except.ok.inj hx
    have hmem : x ∈ (get_guest_list n).filter (fun g => !running.contains g) := by
      cases hf : (get_guest_list n).filter (fun g => !running.contains g) with
      | nil => rw [hf] at hx2; exact absurd hx2 (by simp)
      | cons a t =>
        rw [hf] at hx2
        simp only [List.head?] at hx2
        rw [Option.some.inj hx2]
        exact List.mem_cons_self x t
    have hm2 := List.mem_filter.mp hmem
    refine ⟨hm2.1, ?_⟩
    intro hc
    have hm3 := hm2.2
    simp [hc] at hm3

/-- Claim C3 witness: the scenario of the spec with N = 2 and guest0 busy
allocates guest1, a free in-universe identity. -/
theorem C3_allocate_witness :
    pyInt "2" = some 2 ∧
    ("guest1" ∈ get_guest_list 2 ∧ "guest1" ∉ (["guest0"] : List String)) :=
  ⟨by decide, (C3_allocate "2" 2 ["guest0"] (by decide)).2 "guest1" rfl⟩

/-- Claim C4, amended: the seeding call reports success exactly when the image
step, the helper create, the helper start, the mkdir exec call, the archive
build (source present) and the archive write all succeed AND the final forced
helper removal also succeeds: a raising removal replaces the step-4 success
with a failure, and the discarded exit status of the mkdir command influences
nothing.  No partial state is ever reported as success. -/
theorem C4_seed_success_iff (e : SeedEnv) :
    (copy_file_to_volume e).1 = .ok true ↔
      ((e.imagePresent || e.pullOk) = true ∧ e.createOk = true ∧ e.startOk = true ∧
        e.execApiOk = true ∧ e.sourceExists = true ∧ e.putOk = true ∧
        e.removeOk = true) := by
  obtain ⟨a, b, c, d, x, y, z, w, r⟩ := e
  cases a <;> cases b <;> cases c <;> cases d <;> cases x <;> cases y <;> cases z <;>
    cases w <;> cases r <;> decide

/-- Claim C4 counterexample to the claim as stated: a run in which every
enumerated step (image, create/start, mkdir, archive build and write)
succeeded, yet the call reports a failure, because the final helper-removal
step raised and Python propagates an exception raised in a finally block. -/
theorem C4_seed_counterexample :
    (removeFailRun.imagePresent || removeFailRun.pullOk) = true ∧
    removeFailRun.createOk = true ∧ removeFailRun.startOk = true ∧
    removeFailRun.execApiOk = true ∧ removeFailRun.sourceExists = true ∧
    removeFailRun.putOk = true ∧
    (copy_file_to_volume removeFailRun).1 = .error .removeFailed ∧
    ¬(copy_file_to_volume removeFailRun).1 = .ok true := by decide

/-- Claim C5: during a collector run each volume for which the forced removal
raises is not counted, every candidate volume is still attempted (so one
failure aborts nothing), and the returned count is exactly the number of
volumes actually removed. -/
theorem C5_collect_best_effort (s : String) (n : Int) (volumes : List String)
    (containers : List (List Mount)) (removeOk : String → Bool)
    (h : pyInt s = some n) :
    (cleanup_unused_volumes (some s) volumes containers removeOk).attempted
        = volumes.filter (volumeCandidate (get_guest_list n) (usedVolumes containers)) ∧
    (cleanup_unused_volumes (some s) volumes containers removeOk).removed
        = volumes.filter (fun v =>
            volumeCandidate (get_guest_list n) (usedVolumes containers) v && removeOk v) ∧
    (cleanup_unused_volumes (some s) volumes containers removeOk).res
        = ((cleanup_unused_volumes (some s) volumes containers removeOk).removed.length : Int) := by
  rw [cleanup_run s n volumes containers removeOk h]
  have hs := sweepVolumes_spec (get_guest_list n) (usedVolumes containers) removeOk volumes
  exact ⟨hs.1, hs.2.1, by rw [hs.2.2, hs.2.1]⟩

/-- Claim C5 witness: with two orphan guest volumes of which only one removal
succeeds, both are attempted. -/
theorem C5_collect_best_effort_witness :
    pyInt "2" = some 2 ∧
    (cleanup_unused_volumes (some "2") ["jupyterhub-guest0", "jupyterhub-guest1"] []
        (fun v => v == "jupyterhub-guest0")).attempted
      = (["jupyterhub-guest0", "jupyterhub-guest1"] : List String).filter
          (volumeCandidate (get_guest_list 2) (usedVolumes [])) :=
  ⟨by decide,
    (C5_collect_best_effort "2" 2 ["jupyterhub-guest0", "jupyterhub-guest1"] []
      (fun v => v == "jupyterhub-guest0") (by decide)).1⟩

/-- Claim C6: the session query returns exactly the names of the records whose
server field is present and truthy, and both the network failure and the
undecodable-payload failure degrade to the empty list instead of propagating. -/
theorem C6_query (users : List UserRec) (x : String) :
    get_running_users .netFail = [] ∧
    get_running_users .parseFail = [] ∧
    (x ∈ get_running_users (.ok users) ↔
      ∃ u, u ∈ users ∧ u.name = x ∧ serverTruthy u = true) := by
  refine ⟨rfl, rfl, ?_⟩
  simp only [get_running_users, List.mem_map, List.mem_filter]
  constructor
  · rintro ⟨u, ⟨hu, hs⟩, hn⟩
    exact ⟨u, hu, hn, hs⟩
  · rintro ⟨u, hu, hn, hs⟩
    exact ⟨u, ⟨hu, hs⟩, hn⟩

/-- Claim C7, amended: get_guest_list raises exactly when the configured value
does not parse as an integer; on any parsed integer n it returns, without
failing, the sequence of the names guest0 .. guest(n-1) (empty when n ≤ 0),
whose length is n when n is positive, whose i-th element is guest followed by
the decimal numeral of i, and whose elements are pairwise distinct. -/
theorem C7_enumerate (s : String) (n : Int) (h : pyInt s = some n) :
    get_guest_list_s s = some (get_guest_list n) ∧
    (get_guest_list n).length = n.toNat ∧
    (∀ i : Nat, i < n.toNat → (get_guest_list n)[i]? = some ("guest" ++ Nat.repr i)) ∧
    (get_guest_list n).Nodup ∧
    (∀ t : String, pyInt t = none → get_guest_list_s t = none) := by
  refine ⟨by simp [get_guest_list_s, h], by simp [get_guest_list], ?_,
    get_guest_list_nodup n, ?_⟩
  · intro i hi
    simp [get_guest_list, hi]
  · intro t ht
    simp [get_guest_list_s, ht]

/-- Claim C7 witness: pool size 3 enumerates three identities. -/
theorem C7_enumerate_witness :
    pyInt "3" = some 3 ∧ (get_guest_list 3).length = (3 : Int).toNat :=
  ⟨by decide, (C7_enumerate "3" 3 (by decide)).2.1⟩

/-- Claim C7 counterexample to the claim as stated: zero is not a positive
integer, yet the enumerator does not fail on the configuration string 0 — it
returns the empty list. -/
theorem C7_enumerate_counterexample :
    get_guest_list_s "0" = some [] ∧ ¬get_guest_list_s "0" = none := by decide

/-- Claim C8, amended: the collector surfaces a missing/empty or non-numeric
pool size as the out-of-band result -1, distinguishable from every normal
non-negative count; the allocator raises on a non-numeric pool size
(distinguishable), but on a missing or empty pool size it returns the very
None value that also means no slot available, so there the configuration
fault is reported as an ordinary no-slot outcome. -/
theorem C8_config_surfacing :
    (∀ (volumes : List String) (containers : List (List Mount)) (removeOk : String → Bool),
      cleanup_unused_volumes none volumes containers removeOk = ⟨-1, [], []⟩) ∧
    (∀ (s : String) (volumes : List String) (containers : List (List Mount))
        (removeOk : String → Bool), pyInt s = none →
      cleanup_unused_volumes (some s) volumes containers removeOk = ⟨-1, [], []⟩) ∧
    (∀ (s : String) (n : Int) (volumes : List String) (containers : List (List Mount))
        (removeOk : String → Bool), pyInt s = some n →
      0 ≤ (cleanup_unused_volumes (some s) volumes containers removeOk).res) ∧
    (∀ running : List String,
      get_free_user none running = .ok none ∧ get_free_user (some "") running = .ok none) ∧
    (∀ (s : String) (running : List String), pyInt s = none → ¬s = "" →
      get_free_user (some s) running = .error .valueError) := by
  refine ⟨fun volumes containers removeOk => rfl, ?_, ?_, fun running => ⟨rfl, rfl⟩, ?_⟩
  · intro s volumes containers removeOk h
    by_cases hs : s == ""
    · simp [cleanup_unused_volumes, hs]
    · simp [cleanup_unused_volumes, hs, h]
  · intro s n volumes containers removeOk h
    rw [cleanup_run s n volumes containers removeOk h]
    rw [(sweepVolumes_spec (get_guest_list n) (usedVolumes containers) removeOk volumes).2.2]
    exact Int.natCast_nonneg _
  · intro s running h hne
    have hs : (s == "") = false := by
      cases hb : s == ""
      · rfl
      · exact absurd (eq_of_beq hb) hne
    simp [get_free_user, hs, h]

/-- Claim C8 witness: concrete missing and non-numeric configurations. -/
theorem C8_config_surfacing_witness :
    cleanup_unused_volumes none [] [] (fun _ => true) = ⟨-1, [], []⟩ ∧
    cleanup_unused_volumes (some "abc") [] [] (fun _ => true) = ⟨-1, [], []⟩ ∧
    0 ≤ (cleanup_unused_volumes (some "1") [] [] (fun _ => true)).res ∧
    get_free_user none [] = .ok none ∧
    get_free_user (some "abc") [] = .error .valueError :=
  ⟨C8_config_surfacing.1 [] [] (fun _ => true),
    C8_config_surfacing.2.1 "abc" [] [] (fun _ => true) (by decide),
    C8_config_surfacing.2.2.1 "1" 1 [] [] (fun _ => true) (by decide),
    (C8_config_surfacing.2.2.2.1 []).1,
    C8_config_surfacing.2.2.2.2 "abc" [] (by decide) (by decide)⟩

/-- Claim C8 counterexample to the claim as stated: with the pool size unset
the allocator returns exactly the same value as a fully busy pool of size 1,
so the configuration fault is not distinguishable from the normal
none-available outcome. -/
theorem C8_config_counterexample :
    get_free_user none [] = .ok none ∧
    get_free_user (some "1") ["guest0"] = .ok none :=
  ⟨rfl, rfl⟩

/-- Claim C9: the archive builder fails exactly when the path does not exist
in the filesystem snapshot, and otherwise returns a stream at position 0 with
a single entry named by the final path segment, sized by the byte length,
with mode 0o644 and the modification time of the source. -/
theorem C9_archive_build (fs : String → Option FileData) (p : String) :
    (create_tar_archive fs p = .error () ↔ fs p = none) ∧
    (∀ f, fs p = some f →
      create_tar_archive fs p
        = .ok ⟨[⟨pyBasename p, f.content.length, 0o644, f.mtime, f.content⟩], 0⟩) := by
  constructor
  · cases h : fs p <;> simp [create_tar_archive, h]
  · intro f hf
    simp [create_tar_archive, hf]

/-- Claim C9 witness: a concrete two-byte notebook file. -/
theorem C9_archive_build_witness :
    oneFileFs "/var/lib/ckan/notebook/a.ipynb" = some ⟨[7, 8], 3⟩ ∧
    create_tar_archive oneFileFs "/var/lib/ckan/notebook/a.ipynb"
      = .ok ⟨[⟨"a.ipynb", 2, 0o644, 3, [7, 8]⟩], 0⟩ := by
  refine ⟨by decide, ?_⟩
  have h := (C9_archive_build oneFileFs "/var/lib/ckan/notebook/a.ipynb").2
    ⟨[7, 8], 3⟩ (by decide)
  rw [h]
  decide

/-- Claim C10: with an empty username or notebook name, or a notebook name
containing a parent-directory segment, a slash or a backslash, the seeding
entry point returns failure with no docker client created, no helper
container and no archive built. -/
theorem C10_validation (u nb : String) (clientOk srcExists : Bool) (e : SeedEnv)
    (h : u = "" ∨ nb = "" ∨ strContains ".." nb = true ∨ strContains "/" nb = true ∨
      strContains "\\" nb = true) :
    copy_notebook_to_container u nb clientOk srcExists e = (false, nbInit) := by
  unfold copy_notebook_to_container
  rcases h with h | h | h | h | h
  · subst h; simp
  · subst h; simp
  · by_cases h1 : (u == "" || nb == "") = true
    · simp [h1]
    · simp [h1, h]
  · by_cases h1 : (u == "" || nb == "") = true
    · simp [h1]
    · simp [h1, h]
  · by_cases h1 : (u == "" || nb == "") = true
    · simp [h1]
    · simp [h1, h]

/-- Claim C10 witness: a traversal attempt is rejected before any effect. -/
theorem C10_validation_witness :
    strContains ".." "../etc" = true ∧
    copy_notebook_to_container "user" "../etc" true true allOkRun = (false, nbInit) :=
  ⟨by decide,
    C10_validation "user" "../etc" true true allOkRun (Or.inr (Or.inr (Or.inl (by decide))))⟩
